import Mathlib

/-!
Shallow embedding of `minform.py`, a minimal terminal-indicator library with
four indicators: `Bouncer`, `Spinner`, `Ellipsis` and `ProgressBar`.

Output is modelled as the strings handed to `print`: Python `print(x)` is the
string `x ++ "\n"`, and `print(x, end=e)` is `x ++ e`.  Numeric work in
`ProgressBar.update` is modelled in exact integer arithmetic: Python
`int(size*float(k)/n)` truncates the quotient toward zero, which is
`Int.tdiv` on the exact products, and the format `{:.0%}` rounds to the
nearest whole percent with ties to even, implemented exactly by
`roundHalfEven`.  The background thread of an animated indicator is modelled
two ways, each a projection of the same methods: an event trace (`Event`,
`withScope`) for the lifecycle discipline, and explicit state passing
(`LifecycleOp`) for the shared `_run` flag.
-/

namespace Minform

/-- Python string repetition for one character, `c * m`: `m` copies of `c`,
and the empty string when `m ≤ 0` (as in Python). -/
def strRepeat (c : Char) (m : Int) : String :=
  String.mk (List.replicate m.toNat c)

/-- Events observable during an indicator scope: writes to the shared `_run`
flag, starting and joining the background thread, and strings written to
standard output. -/
inductive Event where
  | setRun (b : Bool)
  | startTask
  | joinTask
  | out (s : String)
deriving DecidableEq

/-- Outcome of the body of a Python `with` block: the strings the body writes,
plus, for `raised`, the exception that terminates it. -/
inductive BodyOutcome (ε : Type) where
  | normal (outs : List String)
  | raised (outs : List String) (exc : ε)

/-- The output events a `with` body produces before finishing or faulting. -/
def bodyEvents {ε : Type} : BodyOutcome ε → List Event
  | BodyOutcome.normal outs => outs.map Event.out
  | BodyOutcome.raised outs _ => outs.map Event.out

/-- The exception (if any) the `with` body terminates with. -/
def bodyFault {ε : Type} : BodyOutcome ε → Option ε
  | BodyOutcome.normal _ => none
  | BodyOutcome.raised _ e => some e

/-- Python `with`-statement semantics for these indicators: the enter hook
runs first, the body next, and the exit hook runs unconditionally afterwards,
on the normal path and on the exception path alike.  Every exit hook in the
source returns `None` (falsy), so a body exception is re-raised after the
exit hook completes, which is the second component. -/
def withScope {ε : Type} (enterEvs exitEvs : List Event) (b : BodyOutcome ε) :
    List Event × Option ε :=
  (enterEvs ++ bodyEvents b ++ exitEvs, bodyFault b)

/-- State of `_CharacterIterator(threading.Thread)`: the glyph cycle
`_characters`, the `_message`, the `_erase` flag and the shared `_run` flag. -/
structure CharacterIterator where
  _characters : List Char
  _message : String
  _erase : Bool
  _run : Bool

/-- Constructor `_CharacterIterator.__init__`: stores its three arguments and
sets `_run = True`. -/
def CharacterIterator.init (characters : List Char) (message : String)
    (erase : Bool) : CharacterIterator :=
  { _characters := characters, _message := message, _erase := erase,
    _run := true }

/-- Constructor `Bouncer.__init__(message, erase)`: the glyph cycle is the
four-character string dot, colon, apostrophe, colon (`Char.ofNat 39` is the
apostrophe, escaped in the Python source). -/
def Bouncer.init (message : String) (erase : Bool) : CharacterIterator :=
  CharacterIterator.init ['.', ':', Char.ofNat 39, ':'] message erase

/-- Constructor `Spinner.__init__(message, erase)`: the glyph cycle is the
raw string of dash, backslash, pipe, slash. -/
def Spinner.init (message : String) (erase : Bool) : CharacterIterator :=
  CharacterIterator.init ['-', '\\', '|', '/'] message erase

/-- One line printed by the loop of `_CharacterIterator.run` at glyph index
`i`: the format `"{} {}\r"` applied to `_characters[i]` and `_message`, with
empty `end`. -/
def CharacterIterator.frame (ci : CharacterIterator) (i : Nat) : String :=
  String.singleton (ci._characters.getD i ' ') ++ " " ++ ci._message ++ "\r"

/-- The glyph-index sequence of the animation loops: the index starts at `0`
and becomes `(i + 1) % n` after each frame. -/
def loopIndex (n : Nat) : Nat → Nat
  | 0 => 0
  | j + 1 => (loopIndex n j + 1) % n

/-- The `j`-th line printed by the background loop of
`_CharacterIterator.run` (0-based). -/
def CharacterIterator.runOutput (ci : CharacterIterator) (j : Nat) : String :=
  ci.frame (loopIndex ci._characters.length j)

/-- The `time.sleep(0.1)` between frames of `_CharacterIterator.run`,
in milliseconds. -/
def CharacterIterator.frameIntervalMillis : Nat := 100

/-- The single string printed by `_CharacterIterator.__exit__` after the
join: the message followed by two pad spaces and a newline when `_erase` is
false and the message is non-empty (Python truthiness), otherwise
`len(_message) + 2` spaces with a carriage-return end and no newline. -/
def CharacterIterator.exitOutput (ci : CharacterIterator) : String :=
  if ci._erase = false ∧ ci._message ≠ "" then
    ci._message ++ "  " ++ "\n"
  else
    strRepeat ' ' ((ci._message.length : Int) + 2) ++ "\r"

/-- `_CharacterIterator.__enter__` calls `self.start()`: it launches the one
background thread and returns at once. -/
def CharacterIterator.enterEvents (_ : CharacterIterator) : List Event :=
  [Event.startTask]

/-- The steps of `_CharacterIterator.__exit__`, in source order: set
`_run = False`, join the background thread, then print the final string. -/
def CharacterIterator.exitEvents (ci : CharacterIterator) : List Event :=
  [Event.setRun false, Event.joinTask, Event.out ci.exitOutput]

/-- The lifecycle methods of an animated indicator, viewed by their effect on
the indicator state. -/
inductive LifecycleOp where
  | enterOp
  | runStepOp
  | exitOp
deriving DecidableEq

/-- Field effect of one lifecycle method of `_CharacterIterator`:
`__enter__` assigns no field, one iteration of the `run` loop only reads
`_run`, and `__exit__` assigns `_run = False`. -/
def CharacterIterator.applyOp (ci : CharacterIterator) :
    LifecycleOp → CharacterIterator
  | LifecycleOp.enterOp => ci
  | LifecycleOp.runStepOp => ci
  | LifecycleOp.exitOp => { ci with _run := false }

/-- A sequence of lifecycle methods applied to a `_CharacterIterator`. -/
def CharacterIterator.applyOps (ci : CharacterIterator)
    (ops : List LifecycleOp) : CharacterIterator :=
  ops.foldl CharacterIterator.applyOp ci

/-- State of the `Ellipsis(threading.Thread)` class: `_message`, `_erase`
and the shared `_run` flag (this class duplicates the base-class logic in the
source instead of reusing `_CharacterIterator`). -/
structure Ellipsis where
  _message : String
  _erase : Bool
  _run : Bool

/-- Constructor `Ellipsis.__init__`: stores its two arguments and sets
`_run = True`. -/
def Ellipsis.init (message : String) (erase : Bool) : Ellipsis :=
  { _message := message, _erase := erase, _run := true }

/-- One line printed by the loop of `Ellipsis.run` at index `i`: the message,
then `i` dots padded with `3 - i` spaces, then a carriage return, with empty
`end`. -/
def Ellipsis.frame (e : Ellipsis) (i : Nat) : String :=
  e._message ++ (strRepeat '.' (i : Int) ++ strRepeat ' ' (3 - (i : Int))) ++ "\r"

/-- The `j`-th line printed by the background loop of `Ellipsis.run`; the
index advances by `i = (i + 1) % 4`. -/
def Ellipsis.runOutput (e : Ellipsis) (j : Nat) : String :=
  e.frame (loopIndex 4 j)

/-- The `time.sleep(0.5)` between frames of `Ellipsis.run`, in milliseconds. -/
def Ellipsis.frameIntervalMillis : Nat := 500

/-- The single string printed by `Ellipsis.__exit__` after the join: the
message followed by three pad spaces and a newline when `_erase` is false and
the message is non-empty, otherwise `len(_message) + 3` spaces with a
carriage-return end and no newline. -/
def Ellipsis.exitOutput (e : Ellipsis) : String :=
  if e._erase = false ∧ e._message ≠ "" then
    e._message ++ "   " ++ "\n"
  else
    strRepeat ' ' ((e._message.length : Int) + 3) ++ "\r"

/-- `Ellipsis.__enter__` calls `self.start()`: it launches the one background
thread and returns at once. -/
def Ellipsis.enterEvents (_ : Ellipsis) : List Event :=
  [Event.startTask]

/-- The steps of `Ellipsis.__exit__`, in source order: set `_run = False`,
join the background thread, then print the final string. -/
def Ellipsis.exitEvents (e : Ellipsis) : List Event :=
  [Event.setRun false, Event.joinTask, Event.out e.exitOutput]

/-- Field effect of one lifecycle method of `Ellipsis`: `__enter__` assigns
no field, one iteration of the `run` loop only reads `_run`, and `__exit__`
assigns `_run = False`. -/
def Ellipsis.applyOp (e : Ellipsis) : LifecycleOp → Ellipsis
  | LifecycleOp.enterOp => e
  | LifecycleOp.runStepOp => e
  | LifecycleOp.exitOp => { e with _run := false }

/-- A sequence of lifecycle methods applied to an `Ellipsis`. -/
def Ellipsis.applyOps (e : Ellipsis) (ops : List LifecycleOp) : Ellipsis :=
  ops.foldl Ellipsis.applyOp e

/-- State of `ProgressBar`: `_n`, `_message`, `_size`, `_percent`, exactly
the four attributes assigned by its constructor. -/
structure ProgressBar where
  _n : Int
  _message : String
  _size : Int
  _percent : Bool

/-- Constructor `ProgressBar.__init__(n, message, size, percent)`: only
stores its arguments; no division happens at construction time. -/
def ProgressBar.init (n : Int) (message : String) (size : Int)
    (percent : Bool) : ProgressBar :=
  { _n := n, _message := message, _size := size, _percent := percent }

/-- Round the exact rational `a / b` (`b ≠ 0`) to the nearest integer, ties
to the even neighbour.  This is an exact-arithmetic idealization of the
rounding done by the Python format `{:.0%}` on `k/n`: CPython formats the
binary double nearest to `k/n`, so at a half-percent tie the inexact double
can fall on the other side (`23/40` is `57.5%` exactly, rounded here to `58`,
while the nearest double to `0.575` lies just below it and CPython prints
`57%`).  The theorems below therefore certify the output of this function
only where the double pipeline is exact and the two agree: `k = 0`, `k = n`,
and quotients like the quarters of the demo scenario, whose value and whose
product with 100 are both exactly representable. -/
def roundHalfEven (a b : Int) : Int :=
  let aa := if b < 0 then -a else a
  let bb := if b < 0 then -b else b
  let f := Int.fdiv aa bb
  let r := aa - f * bb
  if 2 * r < bb then f
  else if bb < 2 * r then f + 1
  else if f % 2 = 0 then f else f + 1

/-- The percent suffix of `ProgressBar.update`, the format `{:.0%}` applied
to `k/n`: the whole-percent rounding of `100*k/n` followed by a percent
sign, on the exact value — faithful to CPython exactly where the double
pipeline is exact (see `roundHalfEven`). -/
def percentFormat (k n : Int) : String :=
  toString (roundHalfEven (100 * k) n) ++ "%"

/-- The fill count computed by `ProgressBar.update`:
`int(self._size*float(k)/self._n)`, the exact quotient `size*k/n` truncated
toward zero. -/
def ProgressBar.filledCount (pb : ProgressBar) (k : Int) : Int :=
  Int.tdiv (pb._size * k) pb._n

/-- The bar text of `ProgressBar.update`:
`'#'*filled + '-'*(self._size - filled)`. -/
def ProgressBar.barString (pb : ProgressBar) (k : Int) : String :=
  strRepeat '#' (pb.filledCount k) ++
    strRepeat '-' (pb._size - pb.filledCount k)

/-- Method `ProgressBar.update(k)` as the string it prints: raises
`ZeroDivisionError` when `_n = 0` (the first expression evaluated divides by
`self._n`), otherwise prints the format `"{}{}[{}{}] ({})\r"` with empty
`end`: the message, a space only when the message is non-empty, the bar, and
the percent or `k/n` count suffix. -/
def ProgressBar.update (pb : ProgressBar) (k : Int) : Except String String :=
  if pb._n = 0 then Except.error "ZeroDivisionError"
  else
    Except.ok (pb._message ++ (if pb._message = "" then "" else " ") ++
      "[" ++ pb.barString k ++ "] (" ++
      (if pb._percent then percentFormat k pb._n
       else toString k ++ "/" ++ toString pb._n) ++ ")\r")

/-- Method `ProgressBar.__enter__`: calls `self.update(0)` and returns
`self`; a fault in `update` propagates. -/
def ProgressBar.enter (pb : ProgressBar) : Except String (ProgressBar × String) :=
  (pb.update 0).map (fun line => (pb, line))

/-- Method `ProgressBar.__exit__`: calls `self.update(self._n)` and then
`print('')`, a bare newline; when `update` raises, the newline is never
printed and the exception propagates. -/
def ProgressBar.exitOutputs (pb : ProgressBar) : Except String (List String) :=
  (pb.update pb._n).map (fun line => [line, "\n"])

/-- The public methods of `ProgressBar`. -/
inductive PBOp where
  | enterOp
  | updateOp (k : Int)
  | exitOp

/-- One method call on a `ProgressBar`: the state after the call and the
output of the call.  No method of the source assigns any attribute, so the
state comes back unchanged. -/
def ProgressBar.applyOp (pb : ProgressBar) :
    PBOp → ProgressBar × Except String (List String)
  | PBOp.enterOp => (pb, (pb.update 0).map (fun line => [line]))
  | PBOp.updateOp k => (pb, (pb.update k).map (fun line => [line]))
  | PBOp.exitOp => (pb, pb.exitOutputs)

/-- A sequence of method calls on a `ProgressBar`, threading the state and
collecting each call's output. -/
def ProgressBar.runOps (pb : ProgressBar) :
    List PBOp → ProgressBar × List (Except String (List String))
  | [] => (pb, [])
  | op :: ops =>
    let st := pb.applyOp op
    let rest := ProgressBar.runOps st.1 ops
    (rest.1, st.2 :: rest.2)

/-! Helper lemmas shared by the claim theorems. -/

theorem strRepeat_length (c : Char) (m : Int) :
    (strRepeat c m).length = m.toNat := by
  simp [strRepeat, String.length]

theorem strRepeat_zero (c : Char) : strRepeat c 0 = "" := rfl

theorem tdiv_eq_floor_div (a n : Int) (ha : 0 ≤ a) (hn : 0 < n) :
    Int.tdiv a n = ⌊(a : ℚ) / (n : ℚ)⌋ := by
  have h1 : ((n.toNat : ℕ) : ℤ) = n := Int.toNat_of_nonneg hn.le
  rw [Int.tdiv_eq_ediv ha hn.le, ← h1, Int.cast_natCast]
  exact (Rat.floor_intCast_div_natCast a n.toNat).symm

theorem percentFormat_zero (n : Int) (hn : 0 < n) : percentFormat 0 n = "0%" := by
  have h1 : ¬ (n < 0) := by omega
  simp only [percentFormat, roundHalfEven, mul_zero, neg_zero, if_neg h1,
    Int.zero_fdiv, zero_mul, sub_zero, zero_sub]
  rw [if_pos hn]
  rfl

theorem percentFormat_total (n : Int) (hn : 0 < n) :
    percentFormat n n = "100%" := by
  have h1 : ¬ (n < 0) := by omega
  have h2 : Int.fdiv (100 * n) n = 100 := Int.mul_fdiv_cancel 100 hn.ne'
  have h3 : (100 : Int) * n - 100 * n = 0 := by ring
  have h4 : (2 : Int) * 0 < n := by omega
  simp only [percentFormat, roundHalfEven, if_neg h1, h2, h3, if_pos h4]
  rfl

theorem ProgressBar.applyOp_fst (pb : ProgressBar) (op : PBOp) :
    (pb.applyOp op).1 = pb := by
  cases op <;> rfl

theorem ProgressBar.runOps_fst (pb : ProgressBar) (ops : List PBOp) :
    (pb.runOps ops).1 = pb := by
  induction ops generalizing pb with
  | nil => rfl
  | cons op ops ih =>
    have step : pb.runOps (op :: ops)
        = (((pb.applyOp op).1.runOps ops).1,
           (pb.applyOp op).2 :: ((pb.applyOp op).1.runOps ops).2) := rfl
    rw [step]
    simp [ProgressBar.applyOp_fst, ih]

theorem ProgressBar.runOps_snd_append (pb : ProgressBar) (l1 l2 : List PBOp) :
    (pb.runOps (l1 ++ l2)).2 = (pb.runOps l1).2 ++ (pb.runOps l2).2 := by
  induction l1 generalizing pb with
  | nil => rfl
  | cons op ops ih =>
    have step : ∀ rest : List PBOp, pb.runOps (op :: rest)
        = (((pb.applyOp op).1.runOps rest).1,
           (pb.applyOp op).2 :: ((pb.applyOp op).1.runOps rest).2) :=
      fun rest => rfl
    rw [List.cons_append, step (ops ++ l2), step ops]
    simp [ProgressBar.applyOp_fst, ih]

theorem loopIndex_four (j : Nat) : loopIndex 4 j = j % 4 := by
  induction j with
  | zero => rfl
  | succ j ih =>
    show (loopIndex 4 j + 1) % 4 = (j + 1) % 4
    rw [ih]
    omega

theorem charIter_applyOps_run_false_iff (ci : CharacterIterator)
    (ops : List LifecycleOp) :
    (ci.applyOps ops)._run = false
      ↔ (ci._run = false ∨ LifecycleOp.exitOp ∈ ops) := by
  induction ops generalizing ci with
  | nil => simp [CharacterIterator.applyOps]
  | cons op ops ih =>
    have step : ci.applyOps (op :: ops) = (ci.applyOp op).applyOps ops := rfl
    rw [step, ih]
    cases op <;> simp [CharacterIterator.applyOp]

theorem ellipsis_applyOps_run_false_iff (e : Ellipsis)
    (ops : List LifecycleOp) :
    (e.applyOps ops)._run = false
      ↔ (e._run = false ∨ LifecycleOp.exitOp ∈ ops) := by
  induction ops generalizing e with
  | nil => simp [Ellipsis.applyOps]
  | cons op ops ih =>
    have step : e.applyOps (op :: ops) = (e.applyOp op).applyOps ops := rfl
    rw [step, ih]
    cases op <;> simp [Ellipsis.applyOp]

theorem bodyEvents_count_startTask {ε : Type} (b : BodyOutcome ε) :
    (bodyEvents b).count Event.startTask = 0 := by
  rw [List.count_eq_zero]
  cases b <;> simp [bodyEvents]

theorem bodyEvents_count_joinTask {ε : Type} (b : BodyOutcome ε) :
    (bodyEvents b).count Event.joinTask = 0 := by
  rw [List.count_eq_zero]
  cases b <;> simp [bodyEvents]

/-! Claim theorems. -/

/-- C2: for every ProgressBar with total `n > 0` and bar width `size ≥ 0`,
and every `k` in `[0, n]`, the fill count computed by `update(k)` equals
`⌊size*k/n⌋`, satisfies `0 ≤ filled ≤ size`, and the rendered bar is exactly
`filled` hash characters followed by `size - filled` dash characters, of
total width `size`. -/
theorem c2_progress_bar_fill_count (n size k : Int) (msg : String)
    (percent : Bool) (hn : 0 < n) (hsize : 0 ≤ size) (hk0 : 0 ≤ k)
    (hkn : k ≤ n) :
    (ProgressBar.init n msg size percent).filledCount k
        = ⌊((size * k : Int) : ℚ) / ((n : Int) : ℚ)⌋ ∧
    0 ≤ (ProgressBar.init n msg size percent).filledCount k ∧
    (ProgressBar.init n msg size percent).filledCount k ≤ size ∧
    (ProgressBar.init n msg size percent).barString k
        = strRepeat '#' ((ProgressBar.init n msg size percent).filledCount k)
          ++ strRepeat '-'
              (size - (ProgressBar.init n msg size percent).filledCount k) ∧
    ((ProgressBar.init n msg size percent).barString k).length = size.toNat := by
  have hmul : 0 ≤ size * k := mul_nonneg hsize hk0
  have hfc : (ProgressBar.init n msg size percent).filledCount k
      = Int.tdiv (size * k) n := rfl
  have h0 : 0 ≤ Int.tdiv (size * k) n := Int.tdiv_nonneg hmul hn.le
  have hle : Int.tdiv (size * k) n ≤ size := by
    rw [Int.tdiv_eq_ediv hmul hn.le]
    calc (size * k) / n ≤ (size * n) / n :=
          Int.ediv_le_ediv hn (mul_le_mul_of_nonneg_left hkn hsize)
      _ = size := Int.mul_ediv_cancel size hn.ne'
  refine ⟨?_, ?_, ?_, rfl, ?_⟩
  · rw [hfc]
    exact tdiv_eq_floor_div (size * k) n hmul hn
  · rw [hfc]
    exact h0
  · rw [hfc]
    exact hle
  · show (strRepeat '#' ((ProgressBar.init n msg size percent).filledCount k)
      ++ strRepeat '-'
          (size - (ProgressBar.init n msg size percent).filledCount k)).length
      = size.toNat
    rw [String.length_append, strRepeat_length, strRepeat_length, hfc]
    omega

/-- Witness for C2 at `ProgressBar(4, "Load", size=4, percent=True)`, `k = 2`. -/
theorem c2_progress_bar_fill_count_witness :
    (ProgressBar.init 4 "Load" 4 true).filledCount 2
        = ⌊((4 * 2 : Int) : ℚ) / ((4 : Int) : ℚ)⌋ ∧
    0 ≤ (ProgressBar.init 4 "Load" 4 true).filledCount 2 ∧
    (ProgressBar.init 4 "Load" 4 true).filledCount 2 ≤ 4 ∧
    (ProgressBar.init 4 "Load" 4 true).barString 2
        = strRepeat '#' ((ProgressBar.init 4 "Load" 4 true).filledCount 2)
          ++ strRepeat '-' (4 - (ProgressBar.init 4 "Load" 4 true).filledCount 2) ∧
    ((ProgressBar.init 4 "Load" 4 true).barString 2).length = (4 : Int).toNat :=
  c2_progress_bar_fill_count 4 4 2 "Load" true (by decide) (by decide)
    (by decide) (by decide)

/-- C3: for every ProgressBar with total `n > 0`, scope exit first performs
`update(n)` — whose rendered bar is fully filled (`filledCount = size`, all
hashes, no dashes) — and then emits a trailing newline; moreover after any
sequence of method calls ending in the exit, the last output recorded is
exactly that `update(n)` line followed by the newline, so the bar has been
rendered with `k = n` at least once. -/
theorem c3_progress_bar_exit_full (n size : Int) (msg : String)
    (percent : Bool) (hn : 0 < n) :
    ∃ line : String,
      (ProgressBar.init n msg size percent).update n = Except.ok line ∧
      (ProgressBar.init n msg size percent).exitOutputs
          = Except.ok [line, "\n"] ∧
      (ProgressBar.init n msg size percent).filledCount n = size ∧
      (ProgressBar.init n msg size percent).barString n = strRepeat '#' size ∧
      ∀ ops : List PBOp,
        (((ProgressBar.init n msg size percent).runOps
            (ops ++ [PBOp.exitOp])).2).getLast?
          = some (Except.ok [line, "\n"]) := by
  have hne : (ProgressBar.init n msg size percent)._n ≠ 0 := hn.ne'
  have hfc : (ProgressBar.init n msg size percent).filledCount n = size :=
    Int.mul_tdiv_cancel size hn.ne'
  have hbar : (ProgressBar.init n msg size percent).barString n
      = strRepeat '#' size := by
    show strRepeat '#' ((ProgressBar.init n msg size percent).filledCount n)
        ++ strRepeat '-'
            (size - (ProgressBar.init n msg size percent).filledCount n)
      = strRepeat '#' size
    rw [hfc, sub_self, strRepeat_zero]
    simp
  have hupd : (ProgressBar.init n msg size percent).update n
      = Except.ok (msg ++ (if msg = "" then "" else " ") ++
          "[" ++ (ProgressBar.init n msg size percent).barString n ++ "] (" ++
          (if percent then percentFormat n n
           else toString n ++ "/" ++ toString n) ++ ")\r") := by
    rw [ProgressBar.update, if_neg hne]
    rfl
  have hnacc : (ProgressBar.init n msg size percent)._n = n := rfl
  refine ⟨_, hupd, ?_, hfc, hbar, ?_⟩
  · rw [ProgressBar.exitOutputs, hnacc, hupd]
    rfl
  · intro ops
    rw [ProgressBar.runOps_snd_append]
    have hlast : ((ProgressBar.init n msg size percent).runOps
        [PBOp.exitOp]).2 = [(ProgressBar.init n msg size percent).exitOutputs] :=
      rfl
    rw [hlast, ProgressBar.exitOutputs, hnacc, hupd]
    exact List.getLast?_concat _

/-- Witness for C3 at `ProgressBar(4, "Load", size=4, percent=True)`. -/
theorem c3_progress_bar_exit_full_witness :
    ∃ line : String,
      (ProgressBar.init 4 "Load" 4 true).update 4 = Except.ok line ∧
      (ProgressBar.init 4 "Load" 4 true).exitOutputs
          = Except.ok [line, "\n"] ∧
      (ProgressBar.init 4 "Load" 4 true).filledCount 4 = 4 ∧
      (ProgressBar.init 4 "Load" 4 true).barString 4 = strRepeat '#' 4 ∧
      ∀ ops : List PBOp,
        (((ProgressBar.init 4 "Load" 4 true).runOps
            (ops ++ [PBOp.exitOp])).2).getLast?
          = some (Except.ok [line, "\n"]) :=
  c3_progress_bar_exit_full 4 4 "Load" true (by decide)

/-- C6 (amended): for every ProgressBar with total `n > 0`, `update(k)`
writes exactly one line ending in a carriage return with no trailing
newline: the message, a separating space only when the message is
non-empty, the bracketed bar, and a parenthesised suffix.  The suffix is
the literal `k/n` counts whenever `percent` is false; with `percent` true
its digits are certified at the points where CPython's `{:.0%}` double
pipeline is exact — the full line carries `0%` at `k = 0` and `100%` at
`k = n`, and `ProgressBar(4, "Load", size=4, percent=True)` renders
`Load [----] (0%)` at `k = 0`, `Load [##--] (50%)` at `k = 2` and
`Load [####] (100%)` at `k = 4`. -/
theorem c6_progress_bar_line_format (n size k : Int) (msg : String)
    (percent : Bool) (hn : 0 < n) :
    (∃ suffix : String,
      (ProgressBar.init n msg size percent).update k
        = Except.ok ((if msg = "" then "" else msg ++ " ") ++
            "[" ++ (ProgressBar.init n msg size percent).barString k ++ "] ("
              ++ suffix ++ ")\r") ∧
      (percent = false → suffix = toString k ++ "/" ++ toString n)) ∧
    (ProgressBar.init n msg size true).update 0
        = Except.ok ((if msg = "" then "" else msg ++ " ") ++
            "[" ++ (ProgressBar.init n msg size true).barString 0 ++ "] ("
              ++ "0%" ++ ")\r") ∧
    (ProgressBar.init n msg size true).update n
        = Except.ok ((if msg = "" then "" else msg ++ " ") ++
            "[" ++ (ProgressBar.init n msg size true).barString n ++ "] ("
              ++ "100%" ++ ")\r") ∧
    (ProgressBar.init 4 "Load" 4 true).update 0
        = Except.ok "Load [----] (0%)\r" ∧
    (ProgressBar.init 4 "Load" 4 true).update 2
        = Except.ok "Load [##--] (50%)\r" ∧
    (ProgressBar.init 4 "Load" 4 true).update 4
        = Except.ok "Load [####] (100%)\r" := by
  have hline : ∀ (p : Bool) (j : Int),
      (ProgressBar.init n msg size p).update j
        = Except.ok ((if msg = "" then "" else msg ++ " ") ++
            "[" ++ (ProgressBar.init n msg size p).barString j ++ "] ("
              ++ (if p then percentFormat j n
                  else toString j ++ "/" ++ toString n) ++ ")\r") := by
    intro p j
    have hne : (ProgressBar.init n msg size p)._n ≠ 0 := hn.ne'
    rw [ProgressBar.update, if_neg hne]
    have hm : msg ++ (if msg = "" then "" else " ")
        = (if msg = "" then "" else msg ++ " ") := by
      by_cases hmsg : msg = ""
      · subst hmsg
        rfl
      · rw [if_neg hmsg, if_neg hmsg]
    show Except.ok (msg ++ (if msg = "" then "" else " ") ++
        "[" ++ (ProgressBar.init n msg size p).barString j ++ "] ("
          ++ (if p then percentFormat j n
              else toString j ++ "/" ++ toString n) ++ ")\r")
      = Except.ok ((if msg = "" then "" else msg ++ " ") ++
        "[" ++ (ProgressBar.init n msg size p).barString j ++ "] ("
          ++ (if p then percentFormat j n
              else toString j ++ "/" ++ toString n) ++ ")\r")
    rw [hm]
  refine ⟨⟨(if percent then percentFormat k n
      else toString k ++ "/" ++ toString n), hline percent k, ?_⟩,
      ?_, ?_, rfl, rfl, rfl⟩
  · intro hp
    rw [hp]
    simp
  · rw [hline true 0]
    simp [percentFormat_zero n hn]
  · rw [hline true n]
    simp [percentFormat_total n hn]

/-- Witness for C6 at `ProgressBar(4, "Load", size=4, percent=True)`, `k = 2`. -/
theorem c6_progress_bar_line_format_witness :
    (∃ suffix : String,
      (ProgressBar.init 4 "Load" 4 true).update 2
        = Except.ok ((if ("Load" : String) = "" then "" else "Load" ++ " ") ++
            "[" ++ (ProgressBar.init 4 "Load" 4 true).barString 2 ++ "] ("
              ++ suffix ++ ")\r") ∧
      (true = false → suffix = toString (2 : Int) ++ "/" ++ toString (4 : Int))) ∧
    (ProgressBar.init 4 "Load" 4 true).update 0
        = Except.ok ((if ("Load" : String) = "" then "" else "Load" ++ " ") ++
            "[" ++ (ProgressBar.init 4 "Load" 4 true).barString 0 ++ "] ("
              ++ "0%" ++ ")\r") ∧
    (ProgressBar.init 4 "Load" 4 true).update 4
        = Except.ok ((if ("Load" : String) = "" then "" else "Load" ++ " ") ++
            "[" ++ (ProgressBar.init 4 "Load" 4 true).barString 4 ++ "] ("
              ++ "100%" ++ ")\r") ∧
    (ProgressBar.init 4 "Load" 4 true).update 0
        = Except.ok "Load [----] (0%)\r" ∧
    (ProgressBar.init 4 "Load" 4 true).update 2
        = Except.ok "Load [##--] (50%)\r" ∧
    (ProgressBar.init 4 "Load" 4 true).update 4
        = Except.ok "Load [####] (100%)\r" :=
  c6_progress_bar_line_format 4 4 2 "Load" true (by decide)

/-- C6 counterexample: with an empty message the source omits the separating
space (the format is `"{}{}[..."` with an empty second field), so the
written line is not of the shape `"<message> [<bar>] (<suffix>)\r"`, which
for the empty message would carry a leading space. -/
theorem c6_empty_message_counterexample :
    (ProgressBar.init 4 "" 4 true).update 0 = Except.ok "[----] (0%)\r" ∧
    (ProgressBar.init 4 "" 4 true).update 0 ≠ Except.ok " [----] (0%)\r" := by
  refine ⟨rfl, ?_⟩
  intro h
  rw [show (ProgressBar.init 4 "" 4 true).update 0
      = Except.ok "[----] (0%)\r" from rfl] at h
  exact absurd (Except.ok.inj h) (by decide)

/-- C8 (amended): a ProgressBar constructed with total `n = 0` stores the
bad total without fault at construction time, and the division-by-zero fault
surfaces on the first call to `update` — hence also on scope entry, which
calls `update(0)`, and on scope exit — and is not recovered by the
component. -/
theorem c8_zero_total_division_fault (msg : String) (size k : Int)
    (percent : Bool) :
    (ProgressBar.init 0 msg size percent)._n = 0 ∧
    (ProgressBar.init 0 msg size percent).update k
        = Except.error "ZeroDivisionError" ∧
    (ProgressBar.init 0 msg size percent).enter
        = Except.error "ZeroDivisionError" ∧
    (ProgressBar.init 0 msg size percent).exitOutputs
        = Except.error "ZeroDivisionError" := by
  refine ⟨rfl, ?_, ?_, ?_⟩ <;> rfl

/-- C8 counterexample: a strictly negative total is not a division-by-zero
fault — `ProgressBar(-1, "", size=4, percent=False)` updates and enters
without any fault, rendering a (nonsensical) bar. -/
theorem c8_negative_total_counterexample :
    (ProgressBar.init (-1) "" 4 false).update 0
        = Except.ok "[----] (0/-1)\r" ∧
    (ProgressBar.init (-1) "" 4 false).enter
        = Except.ok (ProgressBar.init (-1) "" 4 false, "[----] (0/-1)\r") := by
  exact ⟨rfl, rfl⟩

/-- C4 (amended): for every animated indicator constructed with
`erase = false` and a non-empty message, scope exit prints one line holding
the message followed by pad spaces matching the animation field (two for
Bouncer/Spinner, three for Ellipsis) and a newline; no animation glyph and
nothing else remains on the final durable line. -/
theorem c4_exit_message_with_pad (chars : List Char) (msg : String)
    (hmsg : msg ≠ "") :
    (CharacterIterator.init chars msg false).exitOutput = msg ++ "  " ++ "\n" ∧
    (Ellipsis.init msg false).exitOutput = msg ++ "   " ++ "\n" := by
  constructor <;>
    simp [CharacterIterator.exitOutput, Ellipsis.exitOutput,
      CharacterIterator.init, Ellipsis.init, hmsg]

/-- Witness for C4 at `Bouncer("Go", erase=False)`. -/
theorem c4_exit_message_with_pad_witness :
    (CharacterIterator.init ['.', ':', Char.ofNat 39, ':'] "Go" false).exitOutput
        = "Go" ++ "  " ++ "\n" ∧
    (Ellipsis.init "Go" false).exitOutput = "Go" ++ "   " ++ "\n" :=
  c4_exit_message_with_pad ['.', ':', Char.ofNat 39, ':'] "Go" (by decide)

/-- C4 counterexample: the final durable line of `Bouncer("Go", erase=False)`
is the message plus two pad spaces, not exactly the message text alone. -/
theorem c4_trailing_pad_counterexample :
    (Bouncer.init "Go" false).exitOutput = "Go  " ++ "\n" ∧
    (Bouncer.init "Go" false).exitOutput ≠ "Go" ++ "\n" := by
  refine ⟨rfl, ?_⟩
  decide

/-- C5: for every animated indicator constructed with `erase = true` or an
empty message, scope exit overwrites the line with a run of spaces whose
length (message length plus two for Bouncer/Spinner, plus three for
Ellipsis) covers the rendered frame content — each animation frame has
exactly one more character, its trailing carriage return — ending with a
carriage return and containing no newline. -/
theorem c5_exit_erase_blank_line (chars : List Char) (msg : String)
    (erase : Bool) (h : erase = true ∨ msg = "") :
    ((CharacterIterator.init chars msg erase).exitOutput
        = strRepeat ' ' ((msg.length : Int) + 2) ++ "\r") ∧
    (∀ i : Nat,
      ((CharacterIterator.init chars msg erase).frame i).length
        = msg.length + 2 + 1) ∧
    ((CharacterIterator.init chars msg erase).exitOutput.data.getLast?
        = some '\r') ∧
    '\n' ∉ (CharacterIterator.init chars msg erase).exitOutput.data ∧
    ((Ellipsis.init msg erase).exitOutput
        = strRepeat ' ' ((msg.length : Int) + 3) ++ "\r") ∧
    (∀ i : Nat, i ≤ 3 →
      ((Ellipsis.init msg erase).frame i).length = msg.length + 3 + 1) ∧
    ((Ellipsis.init msg erase).exitOutput.data.getLast? = some '\r') ∧
    '\n' ∉ (Ellipsis.init msg erase).exitOutput.data := by
  have hcond : ¬ ((CharacterIterator.init chars msg erase)._erase = false
      ∧ (CharacterIterator.init chars msg erase)._message ≠ "") := by
    rcases h with h | h <;> simp [CharacterIterator.init, h]
  have hconde : ¬ ((Ellipsis.init msg erase)._erase = false
      ∧ (Ellipsis.init msg erase)._message ≠ "") := by
    rcases h with h | h <;> simp [Ellipsis.init, h]
  have hout : (CharacterIterator.init chars msg erase).exitOutput
      = strRepeat ' ' ((msg.length : Int) + 2) ++ "\r" := by
    rw [CharacterIterator.exitOutput, if_neg hcond]
    rfl
  have houte : (Ellipsis.init msg erase).exitOutput
      = strRepeat ' ' ((msg.length : Int) + 3) ++ "\r" := by
    rw [Ellipsis.exitOutput, if_neg hconde]
    rfl
  refine ⟨hout, ?_, ?_, ?_, houte, ?_, ?_, ?_⟩
  · intro i
    show (String.singleton ((CharacterIterator.init chars msg erase)._characters.getD i ' ')
        ++ " " ++ msg ++ "\r").length = msg.length + 2 + 1
    rw [String.length_append, String.length_append, String.length_append,
      String.length_singleton,
      show (" " : String).length = 1 from rfl,
      show ("\r" : String).length = 1 from rfl]
    omega
  · rw [hout, String.data_append]
    exact List.getLast?_concat _
  · rw [hout, String.data_append]
    simp [strRepeat, List.mem_replicate]
  · intro i hi
    show (msg ++ (strRepeat '.' (i : Int) ++ strRepeat ' ' (3 - (i : Int)))
        ++ "\r").length = msg.length + 3 + 1
    rw [String.length_append, String.length_append, String.length_append,
      strRepeat_length, strRepeat_length,
      show ("\r" : String).length = 1 from rfl,
      show ((i : Nat) : Int).toNat = i from rfl,
      show ((3 : Int) - (i : Int)).toNat = 3 - i by omega]
    omega
  · rw [houte, String.data_append]
    exact List.getLast?_concat _
  · rw [houte, String.data_append]
    simp [strRepeat, List.mem_replicate]

/-- Witness for C5 at `Spinner("Hi", erase=True)`. -/
theorem c5_exit_erase_blank_line_witness :
    ((CharacterIterator.init ['-', '\\', '|', '/'] "Hi" true).exitOutput
        = strRepeat ' ' ((("Hi" : String).length : Int) + 2) ++ "\r") ∧
    (∀ i : Nat,
      ((CharacterIterator.init ['-', '\\', '|', '/'] "Hi" true).frame i).length
        = ("Hi" : String).length + 2 + 1) ∧
    ((CharacterIterator.init ['-', '\\', '|', '/'] "Hi" true).exitOutput.data.getLast?
        = some '\r') ∧
    '\n' ∉ (CharacterIterator.init ['-', '\\', '|', '/'] "Hi" true).exitOutput.data ∧
    ((Ellipsis.init "Hi" true).exitOutput
        = strRepeat ' ' ((("Hi" : String).length : Int) + 3) ++ "\r") ∧
    (∀ i : Nat, i ≤ 3 →
      ((Ellipsis.init "Hi" true).frame i).length = ("Hi" : String).length + 3 + 1) ∧
    ((Ellipsis.init "Hi" true).exitOutput.data.getLast? = some '\r') ∧
    '\n' ∉ (Ellipsis.init "Hi" true).exitOutput.data :=
  c5_exit_erase_blank_line ['-', '\\', '|', '/'] "Hi" true (Or.inl rfl)

/-- C7: the animation frames are fixed pure functions of the frame index:
Bouncer and Spinner write one glyph, a space, the message and a carriage
return (no newline), the glyph cycling through dot, colon, apostrophe, colon
respectively dash, backslash, pipe, slash, the index advancing modulo 4 with
a 100 ms sleep per frame; Ellipsis writes the message followed by `i` dots
padded with spaces to width 3, `i` cycling 0..3, with a 500 ms sleep. -/
theorem c7_frame_functions (msg : String) (erase : Bool) (j : Nat) :
    (Bouncer.init msg erase).runOutput j
        = String.singleton (['.', ':', Char.ofNat 39, ':'].getD (j % 4) ' ')
          ++ " " ++ msg ++ "\r" ∧
    (Spinner.init msg erase).runOutput j
        = String.singleton (['-', '\\', '|', '/'].getD (j % 4) ' ')
          ++ " " ++ msg ++ "\r" ∧
    (Bouncer.init msg erase).runOutput (j + 4)
        = (Bouncer.init msg erase).runOutput j ∧
    (Spinner.init msg erase).runOutput (j + 4)
        = (Spinner.init msg erase).runOutput j ∧
    CharacterIterator.frameIntervalMillis = 100 ∧
    (Ellipsis.init msg erase).runOutput j
        = msg ++ (strRepeat '.' ((j % 4 : Nat) : Int)
            ++ strRepeat ' ' (3 - ((j % 4 : Nat) : Int))) ++ "\r" ∧
    (Ellipsis.init msg erase).runOutput (j + 4)
        = (Ellipsis.init msg erase).runOutput j ∧
    Ellipsis.frameIntervalMillis = 500 := by
  have hper : (j + 4) % 4 = j % 4 := by omega
  refine ⟨?_, ?_, ?_, ?_, rfl, ?_, ?_, rfl⟩ <;>
    simp [Bouncer.init, Spinner.init, Ellipsis.init, CharacterIterator.init,
      CharacterIterator.runOutput, Ellipsis.runOutput, CharacterIterator.frame,
      Ellipsis.frame, loopIndex_four, hper]

/-- C9: for every animated indicator instance (`_CharacterIterator` backing
Bouncer and Spinner, and `Ellipsis`), the `_run` flag starts `true` at
construction; `__enter__` and the loop steps leave it unchanged, `__exit__`
sets it `false`, no operation ever turns it from `false` back to `true`, and
after any sequence of lifecycle operations the flag is `false` exactly when
the scope exit has occurred — so the flag transitions `true → false` exactly
once, at scope exit, and the indicator can never be restarted. -/
theorem c9_run_flag_lifecycle (chars : List Char) (msg : String)
    (erase : Bool) :
    (CharacterIterator.init chars msg erase)._run = true ∧
    (∀ (ci : CharacterIterator) (op : LifecycleOp),
      (ci.applyOp op)._run = ci._run ∨ (ci.applyOp op)._run = false) ∧
    (∀ (ci : CharacterIterator) (op : LifecycleOp),
      ci._run = false → (ci.applyOp op)._run = false) ∧
    (∀ ops : List LifecycleOp,
      (((CharacterIterator.init chars msg erase).applyOps ops)._run = false
        ↔ LifecycleOp.exitOp ∈ ops)) ∧
    (Ellipsis.init msg erase)._run = true ∧
    (∀ (e : Ellipsis) (op : LifecycleOp),
      (e.applyOp op)._run = e._run ∨ (e.applyOp op)._run = false) ∧
    (∀ (e : Ellipsis) (op : LifecycleOp),
      e._run = false → (e.applyOp op)._run = false) ∧
    (∀ ops : List LifecycleOp,
      (((Ellipsis.init msg erase).applyOps ops)._run = false
        ↔ LifecycleOp.exitOp ∈ ops)) := by
  refine ⟨rfl, ?_, ?_, ?_, rfl, ?_, ?_, ?_⟩
  · intro ci op
    cases op
    · exact Or.inl rfl
    · exact Or.inl rfl
    · exact Or.inr rfl
  · intro ci op hf
    cases op
    · exact hf
    · exact hf
    · rfl
  · intro ops
    rw [charIter_applyOps_run_false_iff]
    simp [CharacterIterator.init]
  · intro e op
    cases op
    · exact Or.inl rfl
    · exact Or.inl rfl
    · exact Or.inr rfl
  · intro e op hf
    cases op
    · exact hf
    · exact hf
    · rfl
  · intro ops
    rw [ellipsis_applyOps_run_false_iff]
    simp [Ellipsis.init]

/-- C1: for every animated indicator and every outcome of the scope body —
normal completion or a raised exception — the scope trace is exactly the
single task start, then the body writes, then the exit handler steps: set
the running flag to `false`, join the background task, and only then emit
the final redraw/erase output; the whole trace holds exactly one task start
and exactly one join, and the body fault (if any) propagates only after the
exit handler has run.  Stated for `_CharacterIterator` (Bouncer, Spinner)
and for `Ellipsis`. -/
theorem c1_scope_exit_joins_task {ε : Type} (chars : List Char) (msg : String)
    (erase : Bool) (b : BodyOutcome ε) :
    ((withScope ((CharacterIterator.init chars msg erase).enterEvents)
        ((CharacterIterator.init chars msg erase).exitEvents) b).1
      = Event.startTask :: (bodyEvents b ++
          [Event.setRun false, Event.joinTask,
           Event.out ((CharacterIterator.init chars msg erase).exitOutput)])) ∧
    (withScope ((CharacterIterator.init chars msg erase).enterEvents)
        ((CharacterIterator.init chars msg erase).exitEvents) b).1.count
        Event.startTask = 1 ∧
    (withScope ((CharacterIterator.init chars msg erase).enterEvents)
        ((CharacterIterator.init chars msg erase).exitEvents) b).1.count
        Event.joinTask = 1 ∧
    (withScope ((CharacterIterator.init chars msg erase).enterEvents)
        ((CharacterIterator.init chars msg erase).exitEvents) b).2
      = bodyFault b ∧
    ((withScope ((Ellipsis.init msg erase).enterEvents)
        ((Ellipsis.init msg erase).exitEvents) b).1
      = Event.startTask :: (bodyEvents b ++
          [Event.setRun false, Event.joinTask,
           Event.out ((Ellipsis.init msg erase).exitOutput)])) ∧
    (withScope ((Ellipsis.init msg erase).enterEvents)
        ((Ellipsis.init msg erase).exitEvents) b).1.count Event.startTask = 1 ∧
    (withScope ((Ellipsis.init msg erase).enterEvents)
        ((Ellipsis.init msg erase).exitEvents) b).1.count Event.joinTask = 1 ∧
    (withScope ((Ellipsis.init msg erase).enterEvents)
        ((Ellipsis.init msg erase).exitEvents) b).2 = bodyFault b := by
  have htr : (withScope ((CharacterIterator.init chars msg erase).enterEvents)
      ((CharacterIterator.init chars msg erase).exitEvents) b).1
      = [Event.startTask] ++ bodyEvents b ++
          [Event.setRun false, Event.joinTask,
           Event.out ((CharacterIterator.init chars msg erase).exitOutput)] := rfl
  have htre : (withScope ((Ellipsis.init msg erase).enterEvents)
      ((Ellipsis.init msg erase).exitEvents) b).1
      = [Event.startTask] ++ bodyEvents b ++
          [Event.setRun false, Event.joinTask,
           Event.out ((Ellipsis.init msg erase).exitOutput)] := rfl
  refine ⟨?_, ?_, ?_, rfl, ?_, ?_, ?_, rfl⟩
  · rw [htr]
    simp
  · rw [htr, List.count_append, List.count_append, bodyEvents_count_startTask]
    simp [List.count_cons]
  · rw [htr, List.count_append, List.count_append, bodyEvents_count_joinTask]
    simp [List.count_cons]
  · rw [htre]
    simp
  · rw [htre, List.count_append, List.count_append, bodyEvents_count_startTask]
    simp [List.count_cons]
  · rw [htre, List.count_append, List.count_append, bodyEvents_count_joinTask]
    simp [List.count_cons]

/-- C10: a ProgressBar keeps no completion state: no method call (enter,
update, exit) modifies any field of the instance, the state after any
sequence of method calls is the constructed state, the output of an update
appended to any call history is a function of the constructor arguments and
`k` alone, and rebuilding the bar from its own fields yields the same
update output. -/
theorem c10_progress_bar_stateless (pb : ProgressBar) (ops : List PBOp) :
    (pb.runOps ops).1 = pb ∧
    (∀ op : PBOp, (pb.applyOp op).1 = pb) ∧
    (∀ k : Int,
      (pb.runOps (ops ++ [PBOp.updateOp k])).2
        = (pb.runOps ops).2 ++ [(pb.update k).map (fun line => [line])]) ∧
    (∀ k : Int,
      (ProgressBar.init pb._n pb._message pb._size pb._percent).update k
        = pb.update k) := by
  refine ⟨ProgressBar.runOps_fst pb ops, ProgressBar.applyOp_fst pb, ?_, ?_⟩
  · intro k
    rw [ProgressBar.runOps_snd_append]
    rfl
  · intro k
    rfl

end Minform
